import Mathlib

/-!
Shallow embedding of the Pomodoro timer (src/src/lib.rs) and proofs about it.
Machine integers of the source (u64, i32) are modelled as Nat and Int; the
wrapping behaviour of u64 arithmetic is made explicit with a modulus.
-/

namespace Pomodoro

/-- Modulus of u64 arithmetic: 2 to the power 64. -/
def U64_MOD : Nat := 18446744073709551616

/-- Wrapping u64 subtraction, the release-mode semantics of the unguarded
subtraction operator on u64 in the source. -/
def wsub (a b : Nat) : Nat := (U64_MOD + a % U64_MOD - b % U64_MOD) % U64_MOD

/-- Wrapping u64 multiplication. -/
def wmul (a b : Nat) : Nat := (a * b) % U64_MOD

/-- The Clock struct of lib.rs (lines 517-520): displayed minutes and seconds. -/
structure Clock where
  minutes : Nat
  seconds : Nat
deriving DecidableEq

/-- Clock::new (lines 524-529): a clock at 00:00. -/
def Clock.new : Clock := { minutes := 0, seconds := 0 }

/-- Clock::set_time_ms (lines 532-535): minutes become (ms / 60000) mod 60,
seconds become (ms / 1000) mod 60. -/
def Clock.set_time_ms (_c : Clock) (ms : Nat) : Clock :=
  { minutes := (ms / (1000 * 60)) % 60, seconds := (ms / 1000) % 60 }

/-- Clock::set_time_minutes (lines 538-540): set_time_ms of minutes times 60000,
the multiplication performed on u64. -/
def Clock.set_time_minutes (c : Clock) (minutes : Nat) : Clock :=
  c.set_time_ms (wmul minutes 60000)

/-- Clock::get_ms_from_time (lines 550-552): minutes times 60000 plus seconds
times 1000, all on u64. -/
def Clock.get_ms_from_time (c : Clock) : Nat :=
  (wmul c.minutes 60000 + wmul c.seconds 1000) % U64_MOD

/-- Clock::decrement_one_second (lines 543-547): subtract 1000 from the ms value
(unguarded u64 subtraction) and renormalize through set_time_ms. -/
def Clock.decrement_one_second (c : Clock) : Clock :=
  c.set_time_ms (wsub c.get_ms_from_time 1000)

/-- The two-digit zero padding of the Rust format specifier 02 used by
Clock::get_time: numbers below 10 get a leading zero, larger numbers print
all their digits. -/
def pad2 (n : Nat) : String :=
  if n < 10 then ("0" ++ toString n) else toString n

/-- Clock::get_time (lines 565-567): renders minutes and seconds zero-padded,
separated by a colon. -/
def Clock.get_time (c : Clock) : String :=
  pad2 c.minutes ++ ":" ++ pad2 c.seconds

/-- PomodoroState (lines 507-513). -/
inductive PomodoroState where
  | Working
  | ShortBreak
  | LongBreak
  | None
deriving DecidableEq

/-- Command (lines 500-505). -/
inductive Command where
  | Start
  | Reset
  | Quit
  | None
deriving DecidableEq

/-- StateTracker (lines 438-443): the cycle slot (i32, modelled as Int), the
current state and the start timestamp (Instant, modelled as Nat milliseconds). -/
structure StateTracker where
  current_order : Option Int
  current_state : PomodoroState
  started_at : Option Nat
deriving DecidableEq

/-- StateTracker::new (lines 446-452). -/
def StateTracker.new : StateTracker :=
  { current_order := none, current_state := PomodoroState.None, started_at := none }

/-- StateTracker::increment_cycle (lines 454-460): Some(num) with num below 4
advances to Some(num + 1); every other value, including None and Some(4),
becomes Some(1). -/
def StateTracker.increment_cycle (t : StateTracker) : StateTracker :=
  { t with current_order :=
      match t.current_order with
      | some num => if num < 4 then some (num + 1) else some 1
      | none => some 1 }

/-- StateTracker::decrement_cycle (lines 462-469): Some(num) with num above 1
moves back to Some(num - 1), Some(1) becomes None, and every other value,
including None, becomes Some(1). -/
def StateTracker.decrement_cycle (t : StateTracker) : StateTracker :=
  { t with current_order :=
      match t.current_order with
      | some num => if 1 < num then some (num - 1) else if num = 1 then none else some 1
      | none => some 1 }

/-- StateTracker::get_order (lines 472-474). -/
def StateTracker.get_order (t : StateTracker) : Option Int := t.current_order

/-- StateTracker::set_work_state (lines 478-484): stamp started_at with the
current time, set the state to Working, then increment the cycle. -/
def StateTracker.set_work_state (t : StateTracker) (now : Nat) : StateTracker :=
  ({ t with started_at := some now, current_state := PomodoroState.Working }).increment_cycle

/-- StateTracker::set_break_state (lines 487-496): slots 0 through 3 give
ShortBreak (the source range pattern 0..=3 includes 0), slot 4 gives LongBreak,
anything else, including None, gives PomodoroState.None. -/
def StateTracker.set_break_state (t : StateTracker) : StateTracker :=
  { t with current_state :=
      match t.current_order with
      | some x => if 0 ≤ x ∧ x ≤ 3 then PomodoroState.ShortBreak
                  else if x = 4 then PomodoroState.LongBreak
                  else PomodoroState.None
      | none => PomodoroState.None }

/-- PomodoroSession::async_command_listen (lines 422-432): one non-blocking
read into a one-byte buffer initialised to 0; byte 114 (letter r) maps to
Reset, byte 113 (letter q) maps to Quit, everything else, including the 0 left
in the buffer when no byte is available, maps to Command.None. There is no arm
for byte 115 (letter s). -/
def async_command_listen (buf0 : Nat) : Command :=
  if buf0 = 114 then Command.Reset
  else if buf0 = 113 then Command.Quit
  else Command.None

/-- PomodoroSession::wait_for_next_command (lines 403-418): the blocking menu
reader, looping over incoming bytes until a recognized one arrives; byte 115
(letter s) maps to Start here. Modelled over a finite byte list, returning
none when the list is exhausted. -/
def wait_for_next_command : List Nat → Option Command
  | [] => none
  | b :: rest =>
    if b = 115 then some Command.Start
    else if b = 114 then some Command.Reset
    else if b = 113 then some Command.Quit
    else wait_for_next_command rest

/-- The sleep-duration computation shared by countdown_work (line 181-183) and
countdown_break (line 256-258): sync_offset is true_elapsed minus clock_elapsed
and the sleep argument is 1000 minus sync_offset, both unguarded u64
subtractions. -/
def sync_sleep_ms (true_elapsed clock_elapsed : Nat) : Nat :=
  wsub 1000 (wsub true_elapsed clock_elapsed)

/-- countdown_work line 179: the elapsed milliseconds implied by the displayed
clock, work_time times 60000 minus the clock ms (unguarded u64 subtraction). -/
def work_clock_elapsed (work_time : Nat) (c : Clock) : Nat :=
  wsub (wmul work_time 60000) c.get_ms_from_time

/-- The sleep duration one countdown_work iteration passes to sleep
(lines 168-183). -/
def work_sleep_ms (work_time true_elapsed : Nat) (c : Clock) : Nat :=
  sync_sleep_ms true_elapsed (work_clock_elapsed work_time c)

/-- countdown_break lines 253-254: duration times 60000 minus the clock ms plus
work_time times 60000, on u64. -/
def break_clock_elapsed (duration work_time : Nat) (c : Clock) : Nat :=
  (wsub (wmul duration 60000) c.get_ms_from_time + wmul work_time 60000) % U64_MOD

/-- The sleep duration one countdown_break iteration passes to sleep
(lines 242-258). -/
def break_sleep_ms (duration work_time true_elapsed : Nat) (c : Clock) : Nat :=
  sync_sleep_ms true_elapsed (break_clock_elapsed duration work_time c)

/-- How one countdown-loop iteration ends. -/
inductive TickExit where
  | QuitExit
  | ResetExit
  | Continue
  | PhaseDone
deriving DecidableEq

/-- What one countdown-loop iteration did after its sleep: how many input polls
it performed, how it ended, and the clock it left behind. -/
structure TickResult where
  polls : Nat
  outcome : TickExit
  clock : Clock
deriving DecidableEq

/-- The part of one countdown_work iteration that follows the sleep
(lines 185-200): a first non-blocking poll whose Quit and Reset results return
from the loop at once, then a second non-blocking poll of which only Quit is
honoured, then the clock decrement and the zero test. The pending input bytes
are modelled as a list, with 0 read when the list is exhausted. -/
def countdown_work_tick (input : List Nat) (c : Clock) : TickResult :=
  match async_command_listen (input.headD 0) with
  | Command.Quit => { polls := 1, outcome := TickExit.QuitExit, clock := c }
  | Command.Reset => { polls := 1, outcome := TickExit.ResetExit, clock := c }
  | _ =>
    match async_command_listen ((input.drop 1).headD 0) with
    | Command.Quit => { polls := 2, outcome := TickExit.QuitExit, clock := c }
    | _ =>
      let c2 := c.decrement_one_second
      { polls := 2,
        outcome := if c2.get_ms_from_time = 0 then TickExit.PhaseDone else TickExit.Continue,
        clock := c2 }

/-- The part of one countdown_break iteration that follows the sleep
(lines 260-271): a single non-blocking poll, then the clock decrement and the
zero test. -/
def countdown_break_tick (input : List Nat) (c : Clock) : TickResult :=
  match async_command_listen (input.headD 0) with
  | Command.Quit => { polls := 1, outcome := TickExit.QuitExit, clock := c }
  | Command.Reset => { polls := 1, outcome := TickExit.ResetExit, clock := c }
  | _ =>
    let c2 := c.decrement_one_second
    { polls := 1,
      outcome := if c2.get_ms_from_time = 0 then TickExit.PhaseDone else TickExit.Continue,
      clock := c2 }

/-- The end of countdown_work (lines 202-211): the break-ready notification is
shown and its result unwrapped, so a dispatch failure aborts (models the panic
as the error branch) and only on success does set_break_state run. -/
def finish_work (t : StateTracker) (notify : Except Unit Unit) : Except Unit StateTracker :=
  match notify with
  | Except.error e => Except.error e
  | Except.ok _ => Except.ok t.set_break_state

/-- PomodoroSession::reset_current_pomodoro (lines 145-148), restricted to its
effect on the tracker: decrement_cycle followed by the set_work_state performed
by start_work (line 139). -/
def reset_current_pomodoro_tracker (t : StateTracker) (now : Nat) : StateTracker :=
  (t.decrement_cycle).set_work_state now

/-- k successive calls of set_work_state starting from a fresh tracker. -/
def begin_work_seq : Nat → StateTracker
  | 0 => StateTracker.new
  | n + 1 => (begin_work_seq n).set_work_state 0

/-- n successive calls of decrement_one_second. -/
def iterate_dec : Nat → Clock → Clock
  | 0, c => c
  | n + 1, c => iterate_dec n (c.decrement_one_second)

/-- Unfolding lemma: the slot after set_work_state is the increment-with-wrap of
the previous slot. -/
theorem set_work_state_order (t : StateTracker) (now : Nat) :
    (t.set_work_state now).current_order =
      match t.current_order with
      | some num => if num < 4 then some (num + 1) else some 1
      | none => some 1 := rfl

/-- Unfolding lemma: the slot after decrement_cycle. -/
theorem decrement_cycle_order (t : StateTracker) :
    (t.decrement_cycle).current_order =
      match t.current_order with
      | some num => if 1 < num then some (num - 1) else if num = 1 then none else some 1
      | none => some 1 := rfl

/-- Unfolding lemma: the state after set_break_state. -/
theorem set_break_state_state (t : StateTracker) :
    (t.set_break_state).current_state =
      match t.current_order with
      | some x => if 0 ≤ x ∧ x ≤ 3 then PomodoroState.ShortBreak
                  else if x = 4 then PomodoroState.LongBreak
                  else PomodoroState.None
      | none => PomodoroState.None := rfl

/-- Unfolding lemma: set_work_state on a tracker without a slot. -/
theorem set_work_state_order_none (t : StateTracker) (now : Nat)
    (h : t.current_order = none) : (t.set_work_state now).current_order = some 1 := by
  rw [set_work_state_order, h]

/-- Unfolding lemma: set_work_state on a tracker at slot n. -/
theorem set_work_state_order_some (t : StateTracker) (now : Nat) (n : Int)
    (h : t.current_order = some n) :
    (t.set_work_state now).current_order = if n < 4 then some (n + 1) else some 1 := by
  rw [set_work_state_order, h]

/-- Unfolding lemma: decrement_cycle on a tracker at slot n. -/
theorem decrement_cycle_order_some (t : StateTracker) (n : Int)
    (h : t.current_order = some n) :
    (t.decrement_cycle).current_order =
      if 1 < n then some (n - 1) else if n = 1 then none else some 1 := by
  rw [decrement_cycle_order, h]

/-- Unfolding lemma: set_break_state on a tracker without a slot. -/
theorem set_break_state_state_none (t : StateTracker)
    (h : t.current_order = none) : (t.set_break_state).current_state = PomodoroState.None := by
  rw [set_break_state_state, h]

/-- Unfolding lemma: set_break_state on a tracker at slot n. -/
theorem set_break_state_state_some (t : StateTracker) (n : Int)
    (h : t.current_order = some n) :
    (t.set_break_state).current_state =
      if 0 ≤ n ∧ n ≤ 3 then PomodoroState.ShortBreak
      else if n = 4 then PomodoroState.LongBreak
      else PomodoroState.None := by
  rw [set_break_state_state, h]

/-- General characterization of the sleep-duration computation of the countdown
loops: with drift defined as true elapsed ms minus clock-implied elapsed ms, the
computed value equals 1000 minus drift only while 0 ≤ drift ≤ 1000; a drift
above 1000 makes the unguarded u64 subtraction wrap around instead of clamping
to zero, and a negative drift of magnitude d yields 1000 + d through a double
wrap. -/
theorem sync_sleep_characterization (te ce : Nat) (hte : te < U64_MOD) (hce : ce < U64_MOD) :
    (ce ≤ te → te - ce ≤ 1000 → sync_sleep_ms te ce = 1000 - (te - ce)) ∧
    (ce ≤ te → 1000 < te - ce → sync_sleep_ms te ce = U64_MOD - (te - ce - 1000)) ∧
    (te < ce → ce - te < U64_MOD - 1000 → sync_sleep_ms te ce = 1000 + (ce - te)) := by
  simp only [sync_sleep_ms, wsub, U64_MOD] at *
  omega

/-- Claim C1: the claim states the sleep duration of a countdown iteration is
max(0, 1000 - drift) for every drift, clamped and never an unguarded
subtraction. In the code the subtraction is unguarded: with the work clock full
(clock-implied elapsed 0) and a true elapsed time of 1500 ms, drift is 1500 and
the computed sleep duration wraps around u64 to 2 to the 64 minus 500 instead
of clamping to 0. -/
theorem work_sleep_not_clamped :
    work_clock_elapsed 25 (Clock.new.set_time_minutes 25) = 0 ∧
    work_sleep_ms 25 1500 (Clock.new.set_time_minutes 25) = U64_MOD - 500 ∧
    work_sleep_ms 25 1500 (Clock.new.set_time_minutes 25) ≠ 0 := by
  refine ⟨by decide, by decide, by decide⟩

set_option maxRecDepth 8000 in
/-- Claim C2: the claim states that after set_minutes(1), sixty calls of
decrement_one_second reach 0 remaining ms and a sixty-first call is a no-op.
The first part holds, but the sixty-first call underflows the unguarded u64
subtraction: the clock becomes 25:50 instead of staying at 00:00. -/
theorem decrement_one_second_underflows_at_zero :
    (iterate_dec 60 (Clock.new.set_time_minutes 1)).get_ms_from_time = 0 ∧
    iterate_dec 61 (Clock.new.set_time_minutes 1) = { minutes := 25, seconds := 50 } ∧
    iterate_dec 61 (Clock.new.set_time_minutes 1) ≠ iterate_dec 60 (Clock.new.set_time_minutes 1) := by
  refine ⟨by decide, by decide, by decide⟩

/-- Claim C3, counterexample: on the work countdown, with one pending byte 120
(an unrecognized key), the iteration performs two input polls, not at most
one. -/
theorem countdown_work_tick_polls_twice :
    (countdown_work_tick [120] Clock.new).polls = 2 ∧
    ¬ (countdown_work_tick [120] Clock.new).polls ≤ 1 := by
  refine ⟨by decide, by decide⟩

/-- Claim C3, amended: a break-countdown iteration polls the input exactly once
per tick; a work-countdown iteration polls at most twice per tick, because a
second redundant Quit-only check follows the first poll. All polls happen after
the sleep and before the clock decrement: an iteration that exits on Quit
(from either poll) or on Reset leaves the clock undecremented, and only an
iteration that runs to the decrement step changes it, by exactly one
second. -/
theorem countdown_tick_poll_discipline (input : List Nat) (c : Clock) :
    (countdown_break_tick input c).polls = 1 ∧
    (countdown_work_tick input c).polls ≤ 2 ∧
    ((countdown_break_tick input c).outcome = TickExit.QuitExit ∨
        (countdown_break_tick input c).outcome = TickExit.ResetExit →
      (countdown_break_tick input c).clock = c) ∧
    ((countdown_work_tick input c).outcome = TickExit.QuitExit ∨
        (countdown_work_tick input c).outcome = TickExit.ResetExit →
      (countdown_work_tick input c).clock = c) ∧
    ((countdown_work_tick input c).outcome = TickExit.Continue ∨
        (countdown_work_tick input c).outcome = TickExit.PhaseDone →
      (countdown_work_tick input c).clock = c.decrement_one_second) ∧
    ((countdown_work_tick input c).outcome = TickExit.ResetExit →
      (countdown_work_tick input c).clock = c ∧ (countdown_work_tick input c).polls = 1) := by
  unfold countdown_work_tick countdown_break_tick
  cases h1 : async_command_listen (input.headD 0) <;>
    cases h2 : async_command_listen ((input.drop 1).headD 0) <;>
      simp <;> split <;> simp

/-- Claim C4, counterexample: during a countdown the byte 115 (letter s) yields
Command.None from the non-blocking listener, not Command.Start. -/
theorem async_listen_s_not_start :
    async_command_listen 115 = Command.None ∧ Command.None ≠ Command.Start := by
  refine ⟨by decide, by decide⟩

/-- Claim C4, amended: the non-blocking listener maps byte 114 (letter r) to
Reset and byte 113 (letter q) to Quit; every other byte, 115 (letter s) and the
0 of an empty read included, yields Command.None, and the listener never
returns Start. Byte 115 maps to Start only in the blocking menu reader. -/
theorem async_listen_recognized_bytes (b : Nat) :
    async_command_listen 114 = Command.Reset ∧
    async_command_listen 113 = Command.Quit ∧
    (b ≠ 114 → b ≠ 113 → async_command_listen b = Command.None) ∧
    async_command_listen b ≠ Command.Start ∧
    wait_for_next_command [115] = some Command.Start := by
  refine ⟨by decide, by decide, ?_, ?_, by decide⟩
  · intro h1 h2
    simp [async_command_listen, h1, h2]
  · unfold async_command_listen
    split <;> try split
    all_goals simp

/-- Claim C5: set_work_state called five times from a fresh tracker yields the
slot sequence 1, 2, 3, 4, 1; in general a slot of none becomes some 1, a slot
n with 1 ≤ n < 4 becomes some (n + 1), slot 4 wraps to some 1, and the
resulting slot is never none. -/
theorem begin_work_advances_slot (t : StateTracker) (now : Nat) :
    (t.set_work_state now).current_order ≠ none ∧
    (t.current_order = none → (t.set_work_state now).current_order = some 1) ∧
    (∀ n : Int, t.current_order = some n → 1 ≤ n → n < 4 →
      (t.set_work_state now).current_order = some (n + 1)) ∧
    (t.current_order = some 4 → (t.set_work_state now).current_order = some 1) ∧
    List.map (fun k => (begin_work_seq k).current_order) [1, 2, 3, 4, 5] =
      [some 1, some 2, some 3, some 4, some 1] := by
  refine ⟨?_, ?_, ?_, ?_, by decide⟩
  · cases h : t.current_order with
    | none => rw [set_work_state_order_none t now h]; simp
    | some num => rw [set_work_state_order_some t now num h]; split <;> simp
  · intro h
    exact set_work_state_order_none t now h
  · intro n h h1 h4
    rw [set_work_state_order_some t now n h, if_pos h4]
  · intro h
    rw [set_work_state_order_some t now 4 h]
    norm_num

/-- Claim C6: for a tracker whose slot n lies in 1..4, decrement_cycle followed
by set_work_state returns the slot to n: slot 1 passes through none and back to
1, any larger slot steps down to n - 1 and is incremented back to n. -/
theorem reset_then_begin_work_same_slot (t : StateTracker) (now : Nat) (n : Int)
    (h : t.current_order = some n) (h1 : 1 ≤ n) (h4 : n ≤ 4) :
    ((t.decrement_cycle).set_work_state now).current_order = some n := by
  have hd := decrement_cycle_order_some t n h
  by_cases hn : n = 1
  · subst hn
    norm_num at hd
    rw [set_work_state_order_none t.decrement_cycle now hd]
  · have hgt : 1 < n := lt_of_le_of_ne h1 (Ne.symm hn)
    rw [if_pos hgt] at hd
    rw [set_work_state_order_some t.decrement_cycle now (n - 1) hd,
      if_pos (show n - 1 < 4 by omega)]
    congr 1
    omega

/-- Claim C6, witness: from slot 3, decrement_cycle then set_work_state returns
to slot 3. -/
theorem reset_then_begin_work_same_slot_witness :
    (((⟨some 3, PomodoroState.Working, none⟩ : StateTracker).decrement_cycle).set_work_state 0).current_order = some 3 :=
  reset_then_begin_work_same_slot ⟨some 3, PomodoroState.Working, none⟩ 0 3 rfl (by decide) (by decide)

/-- Claim C7, counterexample: set_time_minutes 60 reduces the minutes modulo
60, so the round trip through get_ms_from_time returns 0 ms, not 3600000 ms:
the reconstruction is not lossless for all m. -/
theorem set_minutes_sixty_roundtrip_lossy :
    (Clock.new.set_time_minutes 60).get_ms_from_time = 0 ∧
    (Clock.new.set_time_minutes 60).get_ms_from_time ≠ 60 * 60000 := by
  refine ⟨by decide, by decide⟩

/-- Claim C7, amended: for every m below 60, set_time_minutes m followed by
get_time renders the zero-padded string m:00, and the round trip through
get_ms_from_time returns exactly m times 60000 ms; at m = 60 and beyond the
modulo-60 normalization loses whole hours. -/
theorem set_minutes_format_and_roundtrip :
    ∀ m : Nat, m < 60 →
      (Clock.new.set_time_minutes m).get_time = pad2 m ++ ":00" ∧
      (Clock.new.set_time_minutes m).get_ms_from_time = m * 60000 := by decide

/-- Claim C7, witness: at m = 5 the format is 05:00 and the round trip gives
300000 ms. -/
theorem set_minutes_format_and_roundtrip_witness :
    (Clock.new.set_time_minutes 5).get_time = "05:00" ∧
    (Clock.new.set_time_minutes 5).get_ms_from_time = 300000 := by
  have h := set_minutes_format_and_roundtrip 5 (by decide)
  exact ⟨h.1.trans (by decide), h.2⟩

/-- Claim C8: set_break_state maps a slot of 1, 2 or 3 to ShortBreak, slot 4 to
LongBreak, and the idle slot none to the idle state PomodoroState.None. -/
theorem set_break_state_phase_from_slot (t : StateTracker) :
    (t.current_order = none → (t.set_break_state).current_state = PomodoroState.None) ∧
    (∀ n : Int, t.current_order = some n → 1 ≤ n → n ≤ 3 →
      (t.set_break_state).current_state = PomodoroState.ShortBreak) ∧
    (t.current_order = some 4 → (t.set_break_state).current_state = PomodoroState.LongBreak) := by
  refine ⟨?_, ?_, ?_⟩
  · intro h
    exact set_break_state_state_none t h
  · intro n h h1 h3
    rw [set_break_state_state_some t n h, if_pos (⟨by omega, h3⟩ : 0 ≤ n ∧ n ≤ 3)]
  · intro h
    rw [set_break_state_state_some t 4 h]
    norm_num

/-- Claim C8, witness: a tracker at slot none stays idle, slot 2 gives
ShortBreak and slot 4 gives LongBreak. -/
theorem set_break_state_phase_from_slot_witness :
    (StateTracker.new.set_break_state).current_state = PomodoroState.None ∧
    ((⟨some 2, PomodoroState.Working, none⟩ : StateTracker).set_break_state).current_state = PomodoroState.ShortBreak ∧
    ((⟨some 4, PomodoroState.Working, none⟩ : StateTracker).set_break_state).current_state = PomodoroState.LongBreak :=
  ⟨(set_break_state_phase_from_slot StateTracker.new).1 rfl,
   (set_break_state_phase_from_slot ⟨some 2, PomodoroState.Working, none⟩).2.1 2 rfl (by decide) (by decide),
   (set_break_state_phase_from_slot ⟨some 4, PomodoroState.Working, none⟩).2.2 rfl⟩

/-- Claim C9: the claim states a failed break-ready notification is swallowed
and the session continues. In the code the notification result is unwrapped, so
a dispatch failure aborts the work-phase completion before set_break_state ever
runs; only a successful dispatch continues into the break transition. -/
theorem notification_failure_aborts_session :
    finish_work StateTracker.new (Except.error ()) = Except.error () ∧
    finish_work StateTracker.new (Except.ok ()) = Except.ok (StateTracker.new.set_break_state) :=
  ⟨rfl, rfl⟩

/-- Claim C10: on a fresh tracker whose slot is still none, decrement_cycle
yields some 1 rather than leaving the slot at none, so reset_current_pomodoro
then increments it and begins work at slot 2, not slot 1. -/
theorem reset_on_fresh_tracker_starts_slot_two :
    (StateTracker.new.decrement_cycle).current_order = some 1 ∧
    (reset_current_pomodoro_tracker StateTracker.new 0).current_order = some 2 := by
  refine ⟨by decide, by decide⟩

end Pomodoro
